import Mathlib

namespace SpecsOverview

/-- Model of a Python `datetime.datetime` value as used by `specs-overview.py`.
Calendar fields are kept directly (Python stores year/month/day/hour/minute/second);
`tz` is `none` for a naive datetime and `some o` for an aware one with a fixed UTC
offset of `o` minutes (the only kind the script builds: `git log --format=%aI`
timestamps carry a numeric offset, and `"Z"` is rewritten to `"+00:00"` before
`fromisoformat`).  Sub-second precision is not modelled (the script never produces
or inspects it). -/
structure PyDatetime where
  year : ℕ
  month : ℕ
  day : ℕ
  hour : ℕ
  minute : ℕ
  second : ℕ
  tz : Option ℤ
deriving DecidableEq, Repr

/-- Python `datetime.min`: year 1, month 1, day 1, midnight, naive (no tzinfo). -/
def pyDatetimeMin : PyDatetime := ⟨1, 1, 1, 0, 0, 0, none⟩

/-- Day number of a proleptic-Gregorian civil date (Howard Hinnant's
`days_from_civil` algorithm, the same day numbering that underlies Python's
`date.toordinal` up to a constant shift).  Used to linearise datetime order. -/
def daysFromCivil (y m d : ℤ) : ℤ :=
  let y' : ℤ := if m ≤ 2 then y - 1 else y
  let era : ℤ := Int.fdiv y' 400
  let yoe : ℤ := y' - era * 400
  let doy : ℤ := (153 * (m + (if 2 < m then -3 else 9)) + 2) / 5 + d - 1
  let doe : ℤ := yoe * 365 + yoe / 4 - yoe / 100 + doy
  era * 146097 + doe - 719468

/-- Linearisation of a datetime to a number of seconds.  For an aware datetime this
is the UTC instant (fields minus the offset), which is exactly the order Python uses
when comparing two aware datetimes; for a naive datetime it is the raw field value,
whose order agrees with Python's field-lexicographic comparison of two naive
datetimes (for calendar-valid field values).  Python refuses to compare a naive
datetime with an aware one (`TypeError`); the sort embedding below checks for that
mixture separately and never compares across it. -/
def dtInstant (dt : PyDatetime) : ℤ :=
  daysFromCivil dt.year dt.month dt.day * 86400
    + dt.hour * 3600 + dt.minute * 60 + dt.second
    - (dt.tz.getD 0) * 60

/-- Whether a datetime is timezone-aware (Python: `dt.tzinfo is not None`). -/
def PyDatetime.aware (dt : PyDatetime) : Bool := dt.tz.isSome

/-- Embedding of the `SpecInfo` dataclass (source lines 20-32).  Counts are Python
ints, modelled as `ℤ`; `created` is `None` or a datetime; `project` is `None` or a
string. -/
structure SpecInfo where
  name : String
  path : String
  spec_type : String
  created : Option PyDatetime
  total : ℤ
  pending : ℤ
  in_progress : ℤ
  completed : ℤ
  project : Option String
deriving DecidableEq, Repr

/-- Embedding of the `SpecInfo.status` property (source lines 34-44): the
`if total == 0 / elif completed == total / elif pending == total / else` chain. -/
def SpecInfo.status (s : SpecInfo) : String :=
  if s.total = 0 then "Empty"
  else if s.completed = s.total then "Complete"
  else if s.pending = s.total then "Pending"
  else "In Progress"

/-- Embedding of the `SpecInfo.status_symbol` property (source lines 46-56). -/
def SpecInfo.status_symbol (s : SpecInfo) : String :=
  if s.status = "Complete" then "✓"
  else if s.status = "In Progress" then "⚠"
  else if s.status = "Pending" then "○"
  else "−"

/-- Embedding of the `SpecInfo.completion_pct` property (source lines 58-63):
`0.0` when `total == 0`, else `(completed / total) * 100`.  The source computes
with Python floats; the division is modelled exactly in `ℚ`. -/
def SpecInfo.completion_pct (s : SpecInfo) : ℚ :=
  if s.total = 0 then 0 else ((s.completed : ℚ) / (s.total : ℚ)) * 100

/-- Embedding of the `SpecInfo.remaining` property (source lines 65-68):
`total - completed`. -/
def SpecInfo.remaining (s : SpecInfo) : ℤ :=
  s.total - s.completed

/-- Convenience constructor for concrete test records: only the four task counts
vary, everything else is fixed and undated. -/
def mkCounts (t p ip c : ℤ) : SpecInfo :=
  ⟨"spec", "/w/specs/spec", "full", none, t, p, ip, c, none⟩

/-- C4 counterexample record: total 5, pending 5, in_progress 0, completed 5.
The consistency invariant `completed + pending + in_progress == total` fails here,
which the claim explicitly allows. -/
def c4Record : SpecInfo := mkCounts 5 5 0 5

section PySort

variable {α : Type} {κ : Type} [LinearOrder κ]

instance decRelKeyLeft (key : α → κ) :
    DecidableRel (fun a b : α => key a ≤ key b) :=
  fun a b => inferInstanceAs (Decidable (key a ≤ key b))

instance decRelKeyRight (key : α → κ) :
    DecidableRel (fun a b : α => key b ≤ key a) :=
  fun a b => inferInstanceAs (Decidable (key b ≤ key a))

/-- Model of Python's built-in `sorted(xs, key=key, reverse=reverse)` for a key
function into a linear order.  `sorted` is documented to be stable (records that
compare equal keep their original order, also when `reverse=True`, which is
documented not to flip ties); ascending stable sorting by a key is exactly
insertion sort with the non-strict comparison `key a ≤ key b`, and descending
stable sorting is insertion sort with `key b ≤ key a`. -/
def pyKeySort (key : α → κ) (reverse : Bool) (l : List α) : List α :=
  if reverse then List.insertionSort (fun a b => key b ≤ key a) l
  else List.insertionSort (fun a b => key a ≤ key b) l

end PySort

/-- Sort key used by `sort_specs` for `--sort name`: `lambda s: s.name`. -/
def nameKey (s : SpecInfo) : String := s.name

/-- Sort key used by `sort_specs` for `--sort date`: `lambda s: s.created or
datetime.min` (a datetime is always truthy and `None` is falsy, so this is
`created` when present and `datetime.min` otherwise), linearised by
`dtInstant`. -/
def dateKey (s : SpecInfo) : ℤ := dtInstant (s.created.getD pyDatetimeMin)

/-- Sort key used by `sort_specs` for `--sort completion`:
`lambda s: s.completion_pct`. -/
def completionKey (s : SpecInfo) : ℚ := s.completion_pct

/-- Sort key used by `sort_specs` for `--sort type`: `lambda s: s.spec_type`. -/
def typeKey (s : SpecInfo) : String := s.spec_type

/-- Whether the date keys of a record list can be compared at all: Python raises
`TypeError` when it compares an offset-naive datetime with an offset-aware one.
The `date` keys are `created or datetime.min`, where `datetime.min` is naive and
every `created` produced by `get_creation_date` is aware, so sorting raises
exactly when the key list mixes naive and aware values (any comparison sort must
compare across that split for lists of length at least two). -/
def dateKeysComparable (specs : List SpecInfo) : Bool :=
  let aw := specs.map fun s => (s.created.getD pyDatetimeMin).aware
  aw.all (fun b => b) || aw.all (fun b => !b)

/-- Error message modelling the `TypeError` Python raises on a naive/aware
datetime comparison. -/
def dateCompareError : String :=
  "TypeError: cannot compare offset-naive and offset-aware datetimes"

/-- Embedding of `sort_specs` (source lines 243-258).  Each recognised key sorts
with Python's stable `sorted`; an unrecognised key returns the input unchanged.
The `date` branch is fallible because Python's `sorted` raises `TypeError` on a
list whose keys mix naive and aware datetimes; the other branches always
succeed. -/
def sort_specs (specs : List SpecInfo) (sort_by : String) (reverse : Bool) :
    Except String (List SpecInfo) :=
  if sort_by = "name" then .ok (pyKeySort nameKey reverse specs)
  else if sort_by = "date" then
    if dateKeysComparable specs then .ok (pyKeySort dateKey reverse specs)
    else .error dateCompareError
  else if sort_by = "completion" then .ok (pyKeySort completionKey reverse specs)
  else if sort_by = "type" then .ok (pyKeySort typeKey reverse specs)
  else .ok specs

/-- Boolean test for two records carrying the same sort key under a given
`--sort` value (used to state stability of `sort_specs`). -/
def sameKey (sb : String) (s t : SpecInfo) : Bool :=
  if sb = "name" then decide (nameKey s = nameKey t)
  else if sb = "date" then decide (dateKey s = dateKey t)
  else if sb = "completion" then decide (completionKey s = completionKey t)
  else if sb = "type" then decide (typeKey s = typeKey t)
  else true

/-- Concrete dated record (aware timestamp from git history). -/
def datedRec : SpecInfo :=
  ⟨"alpha", "/w/specs/alpha", "full", some ⟨2024, 1, 1, 0, 0, 0, some 0⟩,
    1, 0, 0, 1, none⟩

/-- Concrete record without a creation date. -/
def undatedRec : SpecInfo :=
  ⟨"beta", "/w/specs/beta", "full", none, 1, 1, 0, 0, none⟩

/-- Model of a parsed JSON value (the result of `json.loads` on the collector's
standard output, and the document built by `output_json`).  Numbers are modelled
as exact rationals. -/
inductive PyJson where
  | null : PyJson
  | boolean (b : Bool) : PyJson
  | intVal (n : ℤ) : PyJson
  | floatVal (q : ℚ) : PyJson
  | str (s : String) : PyJson
  | arr (items : List PyJson) : PyJson
  | obj (fields : List (String × PyJson)) : PyJson

/-- Whether a JSON value is a dictionary. -/
def PyJson.isObj : PyJson → Bool
  | .obj _ => true
  | _ => false

/-- The message of the modelled `AttributeError` raised by the `.get` attribute
access on a non-dictionary JSON value. -/
def attrGetError : String := "AttributeError: no such method on a non-dict value"

/-- Python `data.get(k, default)` on a parsed JSON value: returns the value
under the key (parsed dictionaries have unique keys) or the default; on a
non-dictionary value the attribute access raises `AttributeError`. -/
def PyJson.dictGet : PyJson → String → PyJson → Except String PyJson
  | .obj fields, k, dflt => .ok ((fields.lookup k).getD dflt)
  | _, _, _ => .error attrGetError

/-- The all-zero default stat set returned by `get_task_stats` on failure
(source line 153). -/
def zeroStatsJson : PyJson :=
  .obj [("total", .intVal 0), ("pending", .intVal 0), ("in_progress", .intVal 0),
    ("completed", .intVal 0)]

/-- Outcome of one `subprocess.run` invocation of the rune binary: either the
call raised an exception, or it completed with an exit code and standard output
(the output is represented by what `json.loads` makes of it: a parsed value or
a parse error). -/
inductive SubprocResult where
  | raised (msg : String) : SubprocResult
  | done (returncode : ℤ) (stdout : Except String PyJson) : SubprocResult

/-- The warning `get_task_stats` prints to stderr on an exception (source line
151). -/
def statsWarning (spec_dir msg : String) : String :=
  "Warning: Failed to get stats for " ++ spec_dir ++ ": " ++ msg

/-- The environment a scan runs against: filesystem state, path arithmetic and
the two external collaborators (git and the rune binary), each field modelling
one Python library primitive the script calls.
`pathExists p` is `Path(p).exists()`; `isDir` is `Path.is_dir()`;
`rglobTasksParents r` lists `f.parent for f in Path(r).rglob("tasks.md")`;
`joinPath` is the `/` operator on paths; `relativeTo p r` is
`Path(p).relative_to(r)` (`none` where Python raises `ValueError`);
`baseName` is `Path.name`; `parentDir` is `Path.parent`; `expandResolve` is
`Path.expanduser().resolve()`; `iterdirSorted` is `sorted(Path.iterdir())`;
`gitLog cwd file` is the `git log --follow --format=%aI --reverse -- file`
invocation run in `cwd` (exception or exit code and stdout); `parseIso` is
`datetime.fromisoformat`; `runeRun rune tasks` is the
`[rune, "list", tasks, "--output", "json"]` invocation. -/
structure Env where
  pathExists : String → Bool
  isDir : String → Bool
  rglobTasksParents : String → List String
  joinPath : String → String → String
  relativeTo : String → String → Option String
  baseName : String → String
  parentDir : String → String
  expandResolve : String → String
  iterdirSorted : String → List String
  gitLog : String → String → Except String (ℤ × String)
  parseIso : String → Except String PyDatetime
  runeRun : String → String → SubprocResult

/-- The `try` block of `get_task_stats` (source lines 138-148): `.error e`
where Python raises inside the block (launch failure, `json.loads` failure on
a zero exit, or `data.get` on a non-dict document), `.ok none` where the block
falls through without returning (non-zero exit code), and `.ok (some v)` where
it returns `data.get("stats", {})`. -/
def getTaskStatsTry (env : Env) (spec_dir rune_path : String) :
    Except String (Option PyJson) :=
  match env.runeRun rune_path (env.joinPath spec_dir "tasks.md") with
  | .raised msg => .error msg
  | .done rc parse =>
    if rc = 0 then
      match parse with
      | .error e => .error e
      | .ok data =>
        match data.dictGet "stats" (.obj []) with
        | .error e => .error e
        | .ok v => .ok (some v)
    else .ok none

/-- Embedding of `get_task_stats` (source lines 134-153): run the `try` block;
an exception is caught and turned into a stderr warning naming the spec path;
in every non-returning path the all-zero stat set is returned.  The second
component is the list of warnings printed to stderr. -/
def get_task_stats (env : Env) (spec_dir rune_path : String) :
    PyJson × List String :=
  match getTaskStatsTry env spec_dir rune_path with
  | .error e => (zeroStatsJson, [statsWarning spec_dir e])
  | .ok none => (zeroStatsJson, [])
  | .ok (some v) => (v, [])

/-- An environment in which every lookup fails and the rune invocation has a
prescribed outcome; used for concrete collector scenarios. -/
def testEnv (rune : String → String → SubprocResult) : Env :=
  ⟨fun _ => false, fun _ => false, fun _ => [], fun a b => a ++ "/" ++ b,
    fun _ _ => none, fun p => p, fun p => p, fun p => p, fun _ => [],
    fun _ _ => .error "git failed", fun _ => .error "invalid isoformat string",
    rune⟩

/-- Environment where rune exits 0 and prints `{"stats": 3}` (a JSON document
whose `stats` member is not a dictionary). -/
def envStats3 : Env :=
  testEnv fun _ _ => .done 0 (.ok (.obj [("stats", .intVal 3)]))

/-- Environment where rune exits with code 1. -/
def envExit1 : Env :=
  testEnv fun _ _ => .done 1 (.ok (.obj []))

/-- Environment where rune exits 0 and prints `[1]` (well-formed JSON that is
not a dictionary, so `data.get` raises `AttributeError` inside the `try`). -/
def envList1 : Env :=
  testEnv fun _ _ => .done 0 (.ok (.arr [.intVal 1]))

/-- Embedding of `detect_spec_type` (source lines 88-99): three file-existence
checks in the spec directory, then `full` when requirements and design both
exist, else `smolspec` when `smolspec.md` exists, else `unknown`. -/
def detect_spec_type (env : Env) (spec_dir : String) : String :=
  let has_requirements := env.pathExists (env.joinPath spec_dir "requirements.md")
  let has_design := env.pathExists (env.joinPath spec_dir "design.md")
  let has_smolspec := env.pathExists (env.joinPath spec_dir "smolspec.md")
  if has_requirements && has_design then "full"
  else if has_smolspec then "smolspec"
  else "unknown"

/-- The classifier as the spec words it, a pure function of the three
file-existence booleans: full when `requirements.md` and `design.md` both
exist (regardless of `smolspec.md`), else smolspec when `smolspec.md` exists,
else unknown.  Stated separately so the classifier can be proved to refine
it. -/
def specTypeOfFlags (has_requirements has_design has_smolspec : Bool) : String :=
  if has_requirements && has_design then "full"
  else if has_smolspec then "smolspec"
  else "unknown"

/-- The loop body of `find_spec_directories` (source lines 75-83): walk the
roots in order, skip a root that does not exist, and collect the parent
directory of every `tasks.md` found by the recursive glob. -/
def gatherTasksDirs (env : Env) : List String → List String
  | [] => []
  | root :: rest =>
    if env.pathExists root then
      env.rglobTasksParents root ++ gatherTasksDirs env rest
    else gatherTasksDirs env rest

/-- Embedding of `find_spec_directories` (source lines 71-85): gather, then
`sorted(spec_dirs)` (path order modelled as string order on the path text). -/
def find_spec_directories (env : Env) (root_dirs : List String) : List String :=
  pyKeySort (fun p : String => p) false (gatherTasksDirs env root_dirs)

/-- Embedding of `get_creation_date` (source lines 102-131): run
`git log --follow --format=%aI --reverse -- tasks.md` in the parent directory,
and on a zero exit with non-empty output parse the first line as ISO-8601
after rewriting a trailing `Z`; any failure (including a parse error, caught
by the bare `except`) yields `None`. -/
def get_creation_date (env : Env) (spec_dir : String) : Option PyDatetime :=
  let tasks_file := env.joinPath spec_dir "tasks.md"
  match env.gitLog (env.parentDir spec_dir) tasks_file with
  | .error _ => none
  | .ok (rc, out) =>
    if rc = 0 ∧ out.trim ≠ "" then
      let first_line := (out.trim.splitOn "\n").headD ""
      match env.parseIso (first_line.replace "Z" "+00:00") with
      | .ok dt => some dt
      | .error _ => none
    else none

/-- The name-resolution loop of `scan_specs` (source lines 163-171): the first
existing root the spec directory is relative to gives the name; a
`ValueError` from `relative_to` moves on to the next root. -/
def relName (env : Env) : List String → String → Option String
  | [], _ => none
  | root :: rest, spec_dir =>
    if env.pathExists root then
      match env.relativeTo spec_dir root with
      | some n => some n
      | none => relName env rest spec_dir
    else relName env rest spec_dir

/-- Extraction of one integer count from the collector's return value, as
`scan_specs` does with `stats.get(k, 0)` (source lines 185-188).  On a
non-dictionary `stats` value the attribute access raises, uncaught, aborting
the scan.  The data model types the counts as integers, so a present
non-integer value is also modelled as a scan error (in Python such a value
would be stored as-is and misbehave later, at render or sort time). -/
def statCount (stats : PyJson) (k : String) : Except String ℤ := do
  let v ← stats.dictGet k (.intVal 0)
  match v with
  | .intVal n => pure n
  | _ => .error "non-integer count"

/-- Construction of one `SpecInfo` inside the `scan_specs` loop (source lines
161-192): resolve the display name, classify, date, collect stats (with its
warnings), and extract the four counts. -/
def buildSpec (env : Env) (root_dirs : List String) (rune_path : String)
    (project_name : Option String) (spec_dir : String) :
    Except String (SpecInfo × List String) := do
  let name := (relName env root_dirs spec_dir).getD (env.baseName spec_dir)
  let spec_type := detect_spec_type env spec_dir
  let created := get_creation_date env spec_dir
  let (stats, w) := get_task_stats env spec_dir rune_path
  let total ← statCount stats "total"
  let pending ← statCount stats "pending"
  let in_progress ← statCount stats "in_progress"
  let completed ← statCount stats "completed"
  pure (⟨name, spec_dir, spec_type, created, total, pending, in_progress,
    completed, project_name⟩, w)

/-- The per-directory loop of `scan_specs`, over the located spec
directories. -/
def scanSpecsGo (env : Env) (root_dirs : List String) (rune_path : String)
    (project_name : Option String) :
    List String → Except String (List SpecInfo × List String)
  | [] => .ok ([], [])
  | d :: ds => do
    let (s, w) ← buildSpec env root_dirs rune_path project_name d
    let (rest, ws) ← scanSpecsGo env root_dirs rune_path project_name ds
    pure (s :: rest, w ++ ws)

/-- Embedding of `scan_specs` (source lines 156-194).  The second component
collects the warnings printed to stderr, in order. -/
def scan_specs (env : Env) (root_dirs : List String) (rune_path : String)
    (project_name : Option String) :
    Except String (List SpecInfo × List String) :=
  scanSpecsGo env root_dirs rune_path project_name
    (find_spec_directories env root_dirs)

/-- The non-project directory denylist of `scan_multi_project` (source line
223). -/
def projectDenylist : List String := ["node_modules", "venv", "__pycache__"]

/-- The per-project loop of `scan_multi_project` (source lines 218-238): skip
non-directories, hidden names and denylisted names; probe the given spec
subdirectories for existence; scan a project only when at least one probe
exists, tagging records with the project directory name. -/
def scanProjects (env : Env) (spec_dirs : List String) (rune_path : String) :
    List String → Except String (List SpecInfo × List String)
  | [] => .ok ([], [])
  | pp :: rest =>
    if !env.isDir pp then scanProjects env spec_dirs rune_path rest
    else if (env.baseName pp).startsWith "." ||
        projectDenylist.contains (env.baseName pp) then
      scanProjects env spec_dirs rune_path rest
    else
      let project_spec_dirs := spec_dirs.filterMap fun sd =>
        let full := env.joinPath pp sd
        if env.pathExists full then some full else none
      if project_spec_dirs.isEmpty then scanProjects env spec_dirs rune_path rest
      else do
        let ps ← scan_specs env project_spec_dirs rune_path
          (some (env.baseName pp))
        let r ← scanProjects env spec_dirs rune_path rest
        pure (ps.1 ++ r.1, ps.2 ++ r.2)

/-- Embedding of `scan_multi_project` (source lines 197-240): for each
workspace, resolve it, and when it is missing or not a directory print a
warning naming it and continue; otherwise scan its sorted immediate
subdirectories as projects. -/
def scan_multi_project (env : Env) :
    List String → List String → String →
      Except String (List SpecInfo × List String)
  | [], _, _ => .ok ([], [])
  | pb :: rest, spec_dirs, rune_path =>
    let pbPath := env.expandResolve pb
    if env.pathExists pbPath && env.isDir pbPath then do
      let ps ← scanProjects env spec_dirs rune_path (env.iterdirSorted pbPath)
      let r ← scan_multi_project env rest spec_dirs rune_path
      pure (ps.1 ++ r.1, ps.2 ++ r.2)
    else do
      let r ← scan_multi_project env rest spec_dirs rune_path
      pure (r.1, ("Warning: Project directory not found: " ++ pb) :: r.2)

/-- Environment in which no path exists at all. -/
def env0 : Env := testEnv fun _ _ => .raised "no rune"

/-- A run of `n` spaces. -/
def spaces (n : ℕ) : String := String.mk (List.replicate n ' ')

/-- Python format `:<w` (left-align, pad with spaces to minimum width `w`,
never truncating). -/
def padRight (s : String) (w : ℕ) : String := s ++ spaces (w - s.length)

/-- Python format `:>w` (right-align, pad with spaces to minimum width `w`). -/
def padLeft (s : String) (w : ℕ) : String := spaces (w - s.length) ++ s

/-- Python string repetition `c * n` for a single character. -/
def repeatChar (c : Char) (n : ℕ) : String := String.mk (List.replicate n c)

/-- Python truthiness of the optional `project` field: `None` and the empty
string are falsy. -/
def truthyOpt : Option String → Bool
  | none => false
  | some s => !s.isEmpty

/-- Two-digit zero-padded decimal. -/
def pad2 (n : ℕ) : String := if n < 10 then "0" ++ toString n else toString n

/-- Four-digit zero-padded decimal (Python `%Y`). -/
def pad4 (n : ℕ) : String :=
  if n < 10 then "000" ++ toString n
  else if n < 100 then "00" ++ toString n
  else if n < 1000 then "0" ++ toString n
  else toString n

/-- Python `dt.strftime("%Y-%m-%d")`. -/
def strftimeYMD (dt : PyDatetime) : String :=
  pad4 dt.year ++ "-" ++ pad2 dt.month ++ "-" ++ pad2 dt.day

/-- Python `dt.isoformat()` at second precision with an optional fixed
offset. -/
def isoformat (dt : PyDatetime) : String :=
  pad4 dt.year ++ "-" ++ pad2 dt.month ++ "-" ++ pad2 dt.day ++ "T" ++
    pad2 dt.hour ++ ":" ++ pad2 dt.minute ++ ":" ++ pad2 dt.second ++
    (match dt.tz with
      | none => ""
      | some o =>
        (if o < 0 then "-" else "+") ++
          pad2 (o.natAbs / 60) ++ ":" ++ pad2 (o.natAbs % 60))

/-- Round to the nearest integer, ties to even (the rounding of Python float
formatting, applied here to the exact rational). -/
def roundHalfEven (x : ℚ) : ℤ :=
  let fl := ⌊x⌋
  let frac := x - fl
  if frac > 1 / 2 then fl + 1
  else if frac < 1 / 2 then fl
  else if fl % 2 = 0 then fl else fl + 1

/-- Python format `:.1f`, modelled on the exact rational value (CPython
formats the nearest binary double instead; no claim depends on the digits). -/
def formatFloat1 (q : ℚ) : String :=
  let n := roundHalfEven (q * 10)
  let m := n.natAbs
  (if n < 0 then "-" else "") ++ toString (m / 10) ++ "." ++ toString (m % 10)

/-- One row of the plain table renderer (source lines 294-302). -/
def tableRow (max_name : ℕ) (display_name : String) (spec : SpecInfo) : String :=
  let created_str := match spec.created with
    | some c => strftimeYMD c
    | none => "unknown"
  let status_str := spec.status_symbol ++ " " ++ spec.status
  padRight display_name max_name ++ "  " ++ padRight spec.spec_type 10 ++ "  " ++
    padRight created_str 12 ++ "  " ++ padRight status_str 12 ++ "  " ++
    padLeft (toString spec.total) 5 ++ "  " ++
    padLeft (toString spec.completed) 5 ++ "  " ++
    padLeft (toString spec.remaining) 9 ++ "  " ++
    padLeft (formatFloat1 spec.completion_pct) 5 ++ "%"

/-- The table header line (source lines 281-290); the first column label
depends on whether any record carries a project tag. -/
def tableHeader (has_projects : Bool) (max_name : ℕ) : String :=
  padRight (if has_projects then "Project/Spec" else "Spec") max_name ++ "  " ++
    padRight "Type" 10 ++ "  " ++ padRight "Created" 12 ++ "  " ++
    padRight "Status" 12 ++ "  " ++ padLeft "Total" 5 ++ "  " ++
    padLeft "Done" 5 ++ "  " ++ padLeft "Remaining" 9 ++ "  " ++ padLeft "%" 6

/-- Embedding of `output_table` (source lines 261-302) as the list of printed
lines: the literal `No specs found.` line on empty input, else header,
separator and one row per record, with names prefixed by `project/` when any
record carries a (truthy) project tag. -/
def output_table (specs : List SpecInfo) : List String :=
  match specs with
  | [] => ["No specs found."]
  | _ =>
    let has_projects := specs.any fun s => truthyOpt s.project
    let display_specs := specs.map fun spec =>
      (if truthyOpt spec.project then
          spec.project.getD "" ++ "/" ++ spec.name
        else spec.name, spec)
    let max_name0 := (display_specs.map fun x => x.1.length).foldr max 0
    let max_name := max max_name0 ("Spec".length)
    tableHeader has_projects max_name ::
      repeatChar '=' (max_name + 80) ::
      display_specs.map fun x => tableRow max_name x.1 x.2

/-- One row of the markdown renderer (source lines 323-337); with projects
present, a falsy project tag renders as the placeholder dash. -/
def markdownRow (has_projects : Bool) (spec : SpecInfo) : String :=
  let created_str := match spec.created with
    | some c => strftimeYMD c
    | none => "unknown"
  let status_str := spec.status_symbol ++ " " ++ spec.status
  if has_projects then
    let project_name := if truthyOpt spec.project then spec.project.getD ""
      else "−"
    "| " ++ project_name ++ " | " ++ spec.name ++ " | " ++ spec.spec_type ++
      " | " ++ created_str ++ " | " ++ status_str ++ " | " ++
      toString spec.total ++ " | " ++ toString spec.completed ++ " | " ++
      toString spec.remaining ++ " | " ++
      formatFloat1 spec.completion_pct ++ "% |"
  else
    "| " ++ spec.name ++ " | " ++ spec.spec_type ++ " | " ++ created_str ++
      " | " ++ status_str ++ " | " ++ toString spec.total ++ " | " ++
      toString spec.completed ++ " | " ++ toString spec.remaining ++ " | " ++
      formatFloat1 spec.completion_pct ++ "% |"

/-- Embedding of `output_markdown` (source lines 305-337) as the list of
printed lines. -/
def output_markdown (specs : List SpecInfo) : List String :=
  match specs with
  | [] => ["No specs found."]
  | _ =>
    let has_projects := specs.any fun s => truthyOpt s.project
    (if has_projects then
        ["| Project | Spec | Type | Created | Status | Total | Done | Remaining | % |",
          "|---------|------|------|---------|--------|------:|-----:|----------:|--:|"]
      else
        ["| Spec | Type | Created | Status | Total | Done | Remaining | % |",
          "|------|------|---------|--------|------:|-----:|----------:|--:|"]) ++
      specs.map (markdownRow has_projects)

/-- A single hexadecimal digit. -/
def hexDigit (n : ℕ) : String :=
  if n < 10 then toString n else String.singleton (Char.ofNat (97 + n - 10))

/-- JSON string escaping for one character (quote, backslash and ASCII control
characters; the `ensure_ascii` escaping of non-ASCII characters is not
modelled, and no claim depends on it). -/
def escapeJsonChar (c : Char) : String :=
  if c = '"' then "\\\""
  else if c = '\\' then "\\\\"
  else if c = '\n' then "\\n"
  else if c = '\t' then "\\t"
  else if c = '\r' then "\\r"
  else if c.toNat < 32 then
    "\\u00" ++ hexDigit (c.toNat / 16) ++ hexDigit (c.toNat % 16)
  else String.singleton c

/-- A JSON string literal. -/
def renderJsonString (s : String) : String :=
  "\"" ++ String.join (s.toList.map escapeJsonChar) ++ "\""

/-- Decimal digits of the fractional part of a non-negative rational, at most
`n` of them, stopping at zero. -/
def fracDigitsAux : ℕ → ℚ → String
  | 0, _ => ""
  | n + 1, x =>
    if x = 0 then ""
    else
      let d := ⌊x * 10⌋
      toString d.toNat ++ fracDigitsAux n (x * 10 - d)

/-- Rendering of a Python float by `json.dumps`, modelled on the exact
rational (CPython prints the shortest round-tripping decimal of the binary
double; no claim depends on the digits). -/
def renderFloat (q : ℚ) : String :=
  if q.den = 1 then toString q.num ++ ".0"
  else
    (if q < 0 then "-" else "") ++ toString (⌊|q|⌋.toNat) ++ "." ++
      fracDigitsAux 17 (|q| - ⌊|q|⌋)

mutual

/-- Model of `json.dumps(v, indent=2)` at nesting prefix `ind`: empty
containers render inline as two characters, non-empty ones with one element
per line. -/
def dumpsVal (ind : ℕ) : PyJson → String
  | .null => "null"
  | .boolean true => "true"
  | .boolean false => "false"
  | .intVal n => toString n
  | .floatVal q => renderFloat q
  | .str s => renderJsonString s
  | .arr [] => "[]"
  | .arr (x :: xs) =>
    "[\n" ++ spaces (ind + 2) ++ dumpsItems (ind + 2) x xs ++ "\n" ++
      spaces ind ++ "]"
  | .obj [] => "\x7b\x7d"
  | .obj (f :: fs) =>
    "\x7b\n" ++ spaces (ind + 2) ++ dumpsFields (ind + 2) f fs ++ "\n" ++
      spaces ind ++ "\x7d"
termination_by j => sizeOf j

/-- Comma-and-newline separated array items. -/
def dumpsItems (ind : ℕ) : PyJson → List PyJson → String
  | x, [] => dumpsVal ind x
  | x, y :: ys => dumpsVal ind x ++ ",\n" ++ spaces ind ++ dumpsItems ind y ys
termination_by x xs => sizeOf x + sizeOf xs

/-- Comma-and-newline separated object members (`"key": value`). -/
def dumpsFields (ind : ℕ) : String × PyJson → List (String × PyJson) → String
  | (k, v), [] => renderJsonString k ++ ": " ++ dumpsVal ind v
  | (k, v), f :: fs =>
    renderJsonString k ++ ": " ++ dumpsVal ind v ++ ",\n" ++ spaces ind ++
      dumpsFields ind f fs
termination_by f fs => sizeOf f + sizeOf fs

end

/-- The JSON object `output_json` builds for one record (source lines
344-364): fixed key order, `created` as ISO string or null, the five stats as
integers, `completion_pct` as a float, and a trailing `project` key only on
records with a truthy tag. -/
def specJsonData (spec : SpecInfo) : PyJson :=
  let base : List (String × PyJson) :=
    [("name", .str spec.name), ("path", .str spec.path),
      ("type", .str spec.spec_type),
      ("created",
        match spec.created with
        | some c => .str (isoformat c)
        | none => .null),
      ("status", .str spec.status),
      ("stats", .obj [("total", .intVal spec.total),
        ("pending", .intVal spec.pending),
        ("in_progress", .intVal spec.in_progress),
        ("completed", .intVal spec.completed),
        ("remaining", .intVal spec.remaining)]),
      ("completion_pct", .floatVal spec.completion_pct)]
  if truthyOpt spec.project then
    .obj (base ++ [("project", .str (spec.project.getD ""))])
  else .obj base

/-- Embedding of `output_json` (source lines 340-366) as the list of printed
lines: one `print` of `json.dumps(data, indent=2)`, with NO special case for
an empty record list (the dumped document is then the two-character `[]`). -/
def output_json (specs : List SpecInfo) : List String :=
  [dumpsVal 0 (.arr (specs.map specJsonData))]

/-- C4: the claim, as stated, is false.  `c4Record` has non-negative counts with
`total > 0` and `pending == total`, so the claim's biconditional
`status == "Pending" ↔ total > 0 ∧ pending == total` forces status `"Pending"`,
but the source's `elif` chain tests `completed == self.total` first and returns
`"Complete"`. -/
theorem status_pending_iff_fails :
    (0 ≤ c4Record.total ∧ 0 ≤ c4Record.pending ∧ 0 ≤ c4Record.in_progress ∧
        0 ≤ c4Record.completed) ∧
      0 < c4Record.total ∧ c4Record.pending = c4Record.total ∧
      c4Record.status ≠ "Pending" := by
  refine ⟨⟨by decide, by decide, by decide, by decide⟩, by decide, by decide, ?_⟩
  decide

/-- C4 (amended): for every record with non-negative counts (the consistency
invariant not assumed): status is `"Empty"` iff `total = 0`; `"Complete"` iff
`total > 0` and `completed = total`; `"Pending"` iff `total > 0`, `completed ≠
total` and `pending = total`; and `"In Progress"` in exactly the remaining
cases. -/
theorem status_characterization (s : SpecInfo)
    (ht : 0 ≤ s.total) (hp : 0 ≤ s.pending) (hip : 0 ≤ s.in_progress)
    (hc : 0 ≤ s.completed) :
    (s.status = "Empty" ↔ s.total = 0) ∧
      (s.status = "Complete" ↔ 0 < s.total ∧ s.completed = s.total) ∧
      (s.status = "Pending" ↔
        0 < s.total ∧ s.completed ≠ s.total ∧ s.pending = s.total) ∧
      (s.status = "In Progress" ↔
        0 < s.total ∧ s.completed ≠ s.total ∧ s.pending ≠ s.total) := by
  have htot : 0 < s.total ↔ s.total ≠ 0 := by omega
  unfold SpecInfo.status
  by_cases h0 : s.total = 0
  · simp [h0]
  · by_cases hcc : s.completed = s.total
    · simp [h0, hcc, htot]
    · by_cases hpp : s.pending = s.total
      · simp [h0, hcc, hpp, htot]
      · simp [h0, hcc, hpp, htot]

/-- C4 witness: the amended characterisation evaluated on the concrete record
with counts (2, 1, 0, 1), whose status is `"In Progress"`. -/
theorem status_characterization_witness :
    (mkCounts 2 1 0 1).status = "In Progress" :=
  ((status_characterization (mkCounts 2 1 0 1) (by decide) (by decide)
        (by decide) (by decide)).2.2.2).2
    ⟨by decide, by decide, by decide⟩

/-- C5: for every record, `remaining = total - completed`, and
`completion_pct` is `0` when `total = 0` and `100 * completed / total`
otherwise (numbers modelled exactly in `ℚ`; the source computes
`(completed / total) * 100` with floats). -/
theorem remaining_and_completion_pct (s : SpecInfo) :
    s.remaining = s.total - s.completed ∧
      s.completion_pct =
        (if s.total = 0 then 0 else 100 * (s.completed : ℚ) / (s.total : ℚ)) := by
  refine ⟨rfl, ?_⟩
  unfold SpecInfo.completion_pct
  by_cases h : s.total = 0
  · simp [h]
  · simp only [h, if_false]
    ring

section PySortLemmas

variable {α : Type} {κ : Type} [LinearOrder κ]

theorem filter_orderedInsert (r : α → α → Prop) [DecidableRel r] (p : α → Bool)
    (hp : ∀ a b, p a = true → p b = true → r a b) (a : α) (l : List α) :
    (List.orderedInsert r a l).filter p = ((a :: l).filter p) := by
  induction l with
  | nil => rfl
  | cons b t ih =>
    rw [List.orderedInsert]
    by_cases h : r a b
    · rw [if_pos h]
    · rw [if_neg h]
      by_cases pa : p a = true <;> by_cases pb : p b = true
      · exact absurd (hp a b pa pb) h
      all_goals simp [List.filter_cons, pa, pb, ih]

theorem filter_insertionSort (r : α → α → Prop) [DecidableRel r] (p : α → Bool)
    (hp : ∀ a b, p a = true → p b = true → r a b) (l : List α) :
    (List.insertionSort r l).filter p = l.filter p := by
  induction l with
  | nil => rfl
  | cons a t ih =>
    rw [List.insertionSort, filter_orderedInsert r p hp a _]
    simp [List.filter_cons, ih]

/-- Stability of the `sorted` model: for any class of equal-keyed elements
(any predicate `p` that can only hold on elements with pairwise equal keys),
sorting does not change the `p`-filtered subsequence, in either direction of the
`reverse` flag. -/
theorem pyKeySort_stable (key : α → κ) (reverse : Bool) (p : α → Bool)
    (hp : ∀ a b, p a = true → p b = true → key a = key b) (l : List α) :
    (pyKeySort key reverse l).filter p = l.filter p := by
  cases reverse with
  | false =>
      exact filter_insertionSort _ p (fun a b ha hb => le_of_eq (hp a b ha hb)) l
  | true =>
      exact filter_insertionSort _ p (fun a b ha hb => le_of_eq (hp a b ha hb).symm) l

theorem pyKeySort_perm (key : α → κ) (reverse : Bool) (l : List α) :
    (pyKeySort key reverse l).Perm l := by
  cases reverse <;> exact List.perm_insertionSort _ l

/-- When all keys are pairwise distinct, the descending sort is exactly the
reversal of the ascending sort. -/
theorem pyKeySort_reverse_eq (key : α → κ) (l : List α)
    (hd : l.Pairwise (fun a b => key a ≠ key b)) :
    pyKeySort key true l = (pyKeySort key false l).reverse := by
  classical
  haveI : IsAntisymm α (fun a b : α => key b < key a) :=
    ⟨fun a b h h' => absurd h' (lt_asymm h)⟩
  haveI : IsTotal α (fun a b : α => key b ≤ key a) :=
    ⟨fun a b => (le_total (key a) (key b)).symm⟩
  haveI : IsTrans α (fun a b : α => key b ≤ key a) :=
    ⟨fun a b c h h' => le_trans h' h⟩
  haveI : IsTotal α (fun a b : α => key a ≤ key b) :=
    ⟨fun a b => le_total (key a) (key b)⟩
  haveI : IsTrans α (fun a b : α => key a ≤ key b) :=
    ⟨fun a b c h h' => le_trans h h'⟩
  have hsym : Symmetric (fun a b : α => key a ≠ key b) := fun a b h => Ne.symm h
  have p1 : (List.insertionSort (fun a b : α => key b ≤ key a) l).Perm l :=
    List.perm_insertionSort _ l
  have p2 : ((List.insertionSort (fun a b : α => key a ≤ key b) l).reverse).Perm l :=
    (List.reverse_perm _).trans (List.perm_insertionSort _ l)
  have hd1 := (p1.pairwise_iff fun h => Ne.symm h).2 hd
  have hd2 := (p2.pairwise_iff fun h => Ne.symm h).2 hd
  have s1le : (List.insertionSort (fun a b : α => key b ≤ key a) l).Sorted
      (fun a b => key b ≤ key a) := List.sorted_insertionSort _ l
  have s2le : ((List.insertionSort (fun a b : α => key a ≤ key b) l).reverse).Sorted
      (fun a b => key b ≤ key a) := by
    rw [List.Sorted, List.pairwise_reverse]
    exact List.sorted_insertionSort _ l
  have s1 : (List.insertionSort (fun a b : α => key b ≤ key a) l).Sorted
      (fun a b => key b < key a) :=
    (s1le.and hd1).imp fun h => lt_of_le_of_ne h.1 (Ne.symm h.2)
  have s2 : ((List.insertionSort (fun a b : α => key a ≤ key b) l).reverse).Sorted
      (fun a b => key b < key a) :=
    (s2le.and hd2).imp fun h => lt_of_le_of_ne h.1 (Ne.symm h.2)
  have := List.eq_of_perm_of_sorted (p1.trans p2.symm) s1 s2
  simpa [pyKeySort] using this

end PySortLemmas

theorem pyKeySort_reverse_of_sameKey {κ : Type} [LinearOrder κ]
    (key : SpecInfo → κ) (keyB : SpecInfo → SpecInfo → Bool)
    (hiff : ∀ s t, keyB s t = true ↔ key s = key t) (specs : List SpecInfo)
    (hd : specs.Pairwise fun s t => keyB s t = false) :
    pyKeySort key true specs = (pyKeySort key false specs).reverse :=
  pyKeySort_reverse_eq key specs
    (hd.imp fun h he => by simp [(hiff _ _).2 he] at h)

theorem pyKeySort_stable_of_sameKey {κ : Type} [LinearOrder κ]
    (key : SpecInfo → κ) (keyB : SpecInfo → SpecInfo → Bool)
    (hiff : ∀ s t, keyB s t = true ↔ key s = key t) (specs : List SpecInfo)
    (reverse : Bool) (s₀ : SpecInfo) :
    (pyKeySort key reverse specs).filter (keyB s₀) = specs.filter (keyB s₀) :=
  pyKeySort_stable key reverse (keyB s₀)
    (fun a b ha hb => ((hiff _ _).1 ha).symm.trans ((hiff _ _).1 hb)) specs

/-- C7: the code is buggy here.  The source substitutes the offset-naive
`datetime.min` for an absent `created_at`, but every present `created_at` is
offset-aware (`git log --format=%aI` plus the `Z`-to-`+00:00` rewrite), and
Python raises `TypeError` when sorting compares a naive datetime with an aware
one.  So on any list mixing dated and undated records the date sort crashes
instead of placing the undated records first/last as the spec intends: here a
two-record mixed list yields the error, not a sorted list. -/
theorem date_sort_mixed_type_error :
    sort_specs [datedRec, undatedRec] "date" false =
      Except.error dateCompareError := rfl

/-- C10: for every record list, an unrecognised sort key returns the input list
unchanged (and in particular never raises). -/
theorem sort_unknown_key_identity (specs : List SpecInfo) (sb : String)
    (reverse : Bool) (h1 : sb ≠ "name") (h2 : sb ≠ "date")
    (h3 : sb ≠ "completion") (h4 : sb ≠ "type") :
    sort_specs specs sb reverse = Except.ok specs := by
  unfold sort_specs
  simp [h1, h2, h3, h4]

/-- C10 witness: the sorter with key `"size"` returns a concrete two-element
list unchanged even though it is not name-sorted. -/
theorem sort_unknown_key_identity_witness :
    sort_specs [undatedRec, datedRec] "size" false =
      Except.ok [undatedRec, datedRec] :=
  sort_unknown_key_identity [undatedRec, datedRec] "size" false
    (by decide) (by decide) (by decide) (by decide)

/-- C9 counterexample: the claim, as stated, asserts stability for every record
list, i.e. sorting always yields an output list whose equal-key subsequences
match the input.  On a list mixing a dated and an undated record the date sort
raises `TypeError` instead of producing any output, so the asserted equation
fails at this concrete input. -/
theorem date_sort_stability_fails_mixed :
    ¬ ((sort_specs [datedRec, undatedRec] "date" true).map
          (List.filter (sameKey "date" datedRec)) =
        Except.ok ([datedRec, undatedRec].filter (sameKey "date" datedRec))) :=
  fun h => Except.noConfusion h

/-- C9 (amended): for every record list and recognised sort key, whenever
sorting succeeds (the `date` key fails with `TypeError` exactly on lists mixing
dated and undated records; the other keys always succeed): with pairwise
distinct sort keys the reverse-flag sort is exactly the reversal of the plain
sort, and sorting is stable in both directions (records with equal keys keep
their relative input order, stated via preservation of every equal-key filtered
subsequence).  A failing sort propagates the same error with and without the
reverse flag. -/
theorem sort_reverse_and_stable (specs : List SpecInfo) (sb : String)
    (hsb : sb = "name" ∨ sb = "date" ∨ sb = "completion" ∨ sb = "type") :
    (specs.Pairwise (fun s t => sameKey sb s t = false) →
        sort_specs specs sb true = (sort_specs specs sb false).map List.reverse) ∧
      (∀ reverse s₀,
        (sort_specs specs sb reverse).map (List.filter (sameKey sb s₀)) =
          (sort_specs specs sb reverse).map
            (fun _ => specs.filter (sameKey sb s₀))) := by
  have hiffName : ∀ s t, sameKey "name" s t = true ↔ nameKey s = nameKey t := by
    intro s t; simp [sameKey]
  have hiffDate : ∀ s t, sameKey "date" s t = true ↔ dateKey s = dateKey t := by
    intro s t; simp [sameKey]
  have hiffCompletion : ∀ s t,
      sameKey "completion" s t = true ↔ completionKey s = completionKey t := by
    intro s t; simp [sameKey]
  have hiffType : ∀ s t, sameKey "type" s t = true ↔ typeKey s = typeKey t := by
    intro s t; simp [sameKey]
  rcases hsb with h | h | h | h <;> subst h
  · refine ⟨fun hd => ?_, fun reverse s₀ => ?_⟩
    · have e1 : sort_specs specs "name" true =
          Except.ok (pyKeySort nameKey true specs) := rfl
      have e0 : sort_specs specs "name" false =
          Except.ok (pyKeySort nameKey false specs) := rfl
      rw [e1, e0,
        pyKeySort_reverse_of_sameKey nameKey (sameKey "name") hiffName specs hd]
      rfl
    · have e : sort_specs specs "name" reverse =
          Except.ok (pyKeySort nameKey reverse specs) := rfl
      rw [e]
      show Except.ok ((pyKeySort nameKey reverse specs).filter (sameKey "name" s₀)) =
        Except.ok (specs.filter (sameKey "name" s₀))
      rw [pyKeySort_stable_of_sameKey nameKey (sameKey "name") hiffName specs
        reverse s₀]
  · have e : ∀ rev, sort_specs specs "date" rev =
        (if dateKeysComparable specs then
            Except.ok (pyKeySort dateKey rev specs)
          else Except.error dateCompareError) := fun rev => rfl
    refine ⟨fun hd => ?_, fun reverse s₀ => ?_⟩
    · by_cases hc : dateKeysComparable specs = true
      · rw [e true, e false, if_pos hc, if_pos hc,
          pyKeySort_reverse_of_sameKey dateKey (sameKey "date") hiffDate specs hd]
        rfl
      · rw [e true, e false, if_neg hc, if_neg hc]
        rfl
    · by_cases hc : dateKeysComparable specs = true
      · rw [e reverse, if_pos hc]
        show Except.ok ((pyKeySort dateKey reverse specs).filter (sameKey "date" s₀)) =
          Except.ok (specs.filter (sameKey "date" s₀))
        rw [pyKeySort_stable_of_sameKey dateKey (sameKey "date") hiffDate specs
          reverse s₀]
      · rw [e reverse, if_neg hc]
        rfl
  · refine ⟨fun hd => ?_, fun reverse s₀ => ?_⟩
    · have e1 : sort_specs specs "completion" true =
          Except.ok (pyKeySort completionKey true specs) := rfl
      have e0 : sort_specs specs "completion" false =
          Except.ok (pyKeySort completionKey false specs) := rfl
      rw [e1, e0, pyKeySort_reverse_of_sameKey completionKey (sameKey "completion")
        hiffCompletion specs hd]
      rfl
    · have e : sort_specs specs "completion" reverse =
          Except.ok (pyKeySort completionKey reverse specs) := rfl
      rw [e]
      show Except.ok
          ((pyKeySort completionKey reverse specs).filter (sameKey "completion" s₀)) =
        Except.ok (specs.filter (sameKey "completion" s₀))
      rw [pyKeySort_stable_of_sameKey completionKey (sameKey "completion")
        hiffCompletion specs reverse s₀]
  · refine ⟨fun hd => ?_, fun reverse s₀ => ?_⟩
    · have e1 : sort_specs specs "type" true =
          Except.ok (pyKeySort typeKey true specs) := rfl
      have e0 : sort_specs specs "type" false =
          Except.ok (pyKeySort typeKey false specs) := rfl
      rw [e1, e0,
        pyKeySort_reverse_of_sameKey typeKey (sameKey "type") hiffType specs hd]
      rfl
    · have e : sort_specs specs "type" reverse =
          Except.ok (pyKeySort typeKey reverse specs) := rfl
      rw [e]
      show Except.ok ((pyKeySort typeKey reverse specs).filter (sameKey "type" s₀)) =
        Except.ok (specs.filter (sameKey "type" s₀))
      rw [pyKeySort_stable_of_sameKey typeKey (sameKey "type") hiffType specs
        reverse s₀]

/-- C9 witness: on a concrete two-record list with distinct names, the
name sort with the reverse flag is exactly the reversal of the plain name
sort. -/
theorem sort_reverse_and_stable_witness :
    sort_specs [undatedRec, datedRec] "name" true =
      (sort_specs [undatedRec, datedRec] "name" false).map List.reverse :=
  (sort_reverse_and_stable [undatedRec, datedRec] "name" (Or.inl rfl)).1
    (by decide)

/-- C2 counterexample: the claim, as stated, requires that a collector
invocation ending in exit code 1 yields the zero stats AND an emitted warning.
The source only prints the warning from the `except` clause; a non-zero exit
code does not raise, so the zero stats are returned with NO warning. -/
theorem nonzero_exit_no_warning :
    ¬ ((get_task_stats envExit1 "/w/specs/s" "./rune").1 = zeroStatsJson ∧
        (get_task_stats envExit1 "/w/specs/s" "./rune").2 ≠ []) :=
  fun h => h.2 rfl

/-- C2 (amended): an exception during invocation yields the all-zero stat set
and a warning on the error stream naming the spec path; a non-zero exit code
yields the all-zero stat set silently (no warning); non-JSON output with a zero
exit code (a `json.loads` failure) yields the all-zero stat set and a warning;
and a zero exit code with well-formed JSON that is not a dictionary (where
`data.get` raises `AttributeError` inside the `try`) also yields the all-zero
stat set and a warning. -/
theorem get_task_stats_warning_cases (env : Env) (spec_dir rune_path : String) :
    (∀ m, env.runeRun rune_path (env.joinPath spec_dir "tasks.md") = .raised m →
        get_task_stats env spec_dir rune_path =
          (zeroStatsJson, [statsWarning spec_dir m])) ∧
      (∀ rc parse,
        env.runeRun rune_path (env.joinPath spec_dir "tasks.md") = .done rc parse →
        rc ≠ 0 → get_task_stats env spec_dir rune_path = (zeroStatsJson, [])) ∧
      (∀ e, env.runeRun rune_path (env.joinPath spec_dir "tasks.md") =
          .done 0 (.error e) →
        get_task_stats env spec_dir rune_path =
          (zeroStatsJson, [statsWarning spec_dir e])) ∧
      (∀ d, env.runeRun rune_path (env.joinPath spec_dir "tasks.md") =
          .done 0 (.ok d) →
        d.isObj = false →
        get_task_stats env spec_dir rune_path =
          (zeroStatsJson, [statsWarning spec_dir attrGetError])) := by
  refine ⟨fun m hm => ?_, fun rc parse hp hrc => ?_, fun e he => ?_,
    fun d hd hobj => ?_⟩
  · unfold get_task_stats getTaskStatsTry
    rw [hm]
  · unfold get_task_stats getTaskStatsTry
    rw [hp]
    simp [hrc]
  · unfold get_task_stats getTaskStatsTry
    rw [he]
    simp
  · unfold get_task_stats getTaskStatsTry
    rw [hd]
    cases d with
    | obj fields => simp [PyJson.isObj] at hobj
    | null => simp [PyJson.dictGet]
    | boolean b => simp [PyJson.dictGet]
    | intVal n => simp [PyJson.dictGet]
    | floatVal q => simp [PyJson.dictGet]
    | str s => simp [PyJson.dictGet]
    | arr items => simp [PyJson.dictGet]

/-- C2 witness: in the concrete exit-code-1 environment the collector returns
the zero stats with an empty warning list, and in the concrete environment
where rune exits 0 printing the non-dictionary document `[1]` it returns the
zero stats together with the warning naming the spec path. -/
theorem get_task_stats_warning_cases_witness :
    get_task_stats envExit1 "/w/specs/s" "./rune" = (zeroStatsJson, []) ∧
      get_task_stats envList1 "/w/specs/s" "./rune" =
        (zeroStatsJson, [statsWarning "/w/specs/s" attrGetError]) :=
  ⟨(get_task_stats_warning_cases envExit1 "/w/specs/s" "./rune").2.1 1
      (.ok (.obj [])) rfl (by decide),
    (get_task_stats_warning_cases envList1 "/w/specs/s" "./rune").2.2.2
      (.arr [.intVal 1]) rfl rfl⟩

/-- C3: code bug.  The collector is annotated `-> dict` and both the spec and
the claim say it always returns a stat dictionary, but on a well-formed JSON
document whose `stats` member is not a dictionary (here `{"stats": 3}` with
exit code 0) the source returns `data.get("stats", {})` unchecked, i.e. the
non-dict value 3.  (It still does not raise: the value is returned, and the
later `stats.get(...)` calls in `scan_specs` are what would blow up.) -/
theorem get_task_stats_nondict_return :
    get_task_stats envStats3 "/w/specs/s" "./rune" = (PyJson.intVal 3, []) ∧
      (PyJson.intVal 3).isObj = false :=
  ⟨rfl, rfl⟩

/-- C6: the classifier is exactly the pure predicate of the three
file-existence booleans: `full` when `requirements.md` and `design.md` both
exist (whether or not `smolspec.md` does), else `smolspec` when `smolspec.md`
exists, else `unknown`. -/
theorem detect_spec_type_flags (env : Env) (spec_dir : String) :
    detect_spec_type env spec_dir =
      specTypeOfFlags (env.pathExists (env.joinPath spec_dir "requirements.md"))
        (env.pathExists (env.joinPath spec_dir "design.md"))
        (env.pathExists (env.joinPath spec_dir "smolspec.md")) := rfl

/-- C8 counterexample: the claim, as stated, says a non-existent workspace
directory is skipped silently with no message of any kind, but
`scan_multi_project` prints `Warning: Project directory not found: <path>` to
stderr before continuing. -/
theorem missing_workspace_warns :
    scan_multi_project env0 ["w"] ["specs"] "./rune" =
        Except.ok ([], ["Warning: Project directory not found: w"]) ∧
      (Except.ok (([], ["Warning: Project directory not found: w"]) :
            List SpecInfo × List String) :
          Except String (List SpecInfo × List String)) ≠
        Except.ok (([], []) : List SpecInfo × List String) :=
  ⟨rfl, fun h => by simp at h⟩

theorem gatherTasksDirs_filter (env : Env) (roots : List String) :
    gatherTasksDirs env (roots.filter fun r => env.pathExists r) =
      gatherTasksDirs env roots := by
  induction roots with
  | nil => rfl
  | cons r rs ih =>
    by_cases h : env.pathExists r = true
    · rw [List.filter_cons_of_pos h]
      unfold gatherTasksDirs
      rw [if_pos h, if_pos h, ih]
    · rw [List.filter_cons_of_neg (by simpa using h)]
      conv_rhs => rw [gatherTasksDirs]
      rw [if_neg h, ih]

theorem relName_filter (env : Env) (roots : List String) (d : String) :
    relName env (roots.filter fun r => env.pathExists r) d =
      relName env roots d := by
  induction roots with
  | nil => rfl
  | cons r rs ih =>
    by_cases h : env.pathExists r = true
    · rw [List.filter_cons_of_pos h]
      unfold relName
      rw [if_pos h, if_pos h]
      cases env.relativeTo d r with
      | none => exact ih
      | some n => rfl
    · rw [List.filter_cons_of_neg (by simpa using h)]
      conv_rhs => rw [relName]
      rw [if_neg h, ih]

theorem buildSpec_filter (env : Env) (roots : List String) (rune_path : String)
    (project_name : Option String) (d : String) :
    buildSpec env (roots.filter fun r => env.pathExists r) rune_path
        project_name d =
      buildSpec env roots rune_path project_name d := by
  unfold buildSpec
  rw [relName_filter]

theorem scanSpecsGo_filter (env : Env) (roots : List String)
    (rune_path : String) (project_name : Option String) (ds : List String) :
    scanSpecsGo env (roots.filter fun r => env.pathExists r) rune_path
        project_name ds =
      scanSpecsGo env roots rune_path project_name ds := by
  induction ds with
  | nil => rfl
  | cons d ds ih =>
    unfold scanSpecsGo
    rw [buildSpec_filter, ih]

/-- C8 (amended): a root directory that does not exist is silently skipped by
the scan — locating and scanning with the missing roots removed is literally
the same computation, messages included — while a workspace directory that is
missing or not a directory is skipped WITH a stderr warning naming it, the
scan continuing over the remaining workspaces. -/
theorem missing_dirs_skip_behavior (env : Env) (roots : List String)
    (rune_path : String) (project_name : Option String) (ws : String)
    (wss spec_dirs : List String) :
    (find_spec_directories env (roots.filter fun r => env.pathExists r) =
        find_spec_directories env roots) ∧
      (scan_specs env (roots.filter fun r => env.pathExists r) rune_path
          project_name =
        scan_specs env roots rune_path project_name) ∧
      ((env.pathExists (env.expandResolve ws) &&
            env.isDir (env.expandResolve ws)) = false →
        scan_multi_project env (ws :: wss) spec_dirs rune_path =
          (scan_multi_project env wss spec_dirs rune_path).map
            (fun r =>
              (r.1, ("Warning: Project directory not found: " ++ ws) :: r.2))) := by
  refine ⟨?_, ?_, fun hcond => ?_⟩
  · unfold find_spec_directories
    rw [gatherTasksDirs_filter]
  · unfold scan_specs
    rw [scanSpecsGo_filter, find_spec_directories, gatherTasksDirs_filter]
    rfl
  · show (let pbPath := env.expandResolve ws
      if env.pathExists pbPath && env.isDir pbPath then _ else _) = _
    rw [if_neg (by simp [hcond])]
    cases scan_multi_project env wss spec_dirs rune_path with
    | error e => rfl
    | ok r => rfl

/-- C8 witness: in the all-missing environment the workspace scan of `["w"]`
emits exactly the warning and no records. -/
theorem missing_dirs_skip_behavior_witness :
    scan_multi_project env0 ["w2"] ["specs"] "./rune" =
      (scan_multi_project env0 ([] : List String) ["specs"] "./rune").map
        (fun r =>
          (r.1, ("Warning: Project directory not found: " ++ "w2") :: r.2)) :=
  (missing_dirs_skip_behavior env0 [] "./rune" none "w2" [] ["specs"]).2.2 rfl

/-- C1 counterexample: the claim, as stated, says the JSON renderer also
prints the literal `No specs found.` line on an empty record list; in fact
`output_json` has no empty-input special case and prints the JSON document
`[]`. -/
theorem json_renderer_empty_not_no_specs_line :
    output_json [] ≠ ["No specs found."] := by
  have e : output_json [] = ["[]"] := by simp [output_json, dumpsVal.eq_def]
  rw [e]
  decide

/-- C1 (amended): on an empty record list the table and markdown renderers
print exactly the literal `No specs found.` line and nothing else, while the
JSON renderer prints exactly the two-character JSON document `[]`. -/
theorem empty_renderers_output :
    output_table [] = ["No specs found."] ∧
      output_markdown [] = ["No specs found."] ∧
      output_json [] = ["[]"] := by
  refine ⟨rfl, rfl, ?_⟩
  simp [output_json, dumpsVal.eq_def]

end SpecsOverview
